import Mathlib

/-!
Shallow embedding of the calculator microservice in `src/index.js`.

Number model: a JavaScript number is either NaN or a numeric value; numeric
values are modelled by exact rationals (`ℚ`).  Every number flowing through
the service originates from `parseFloat` on a decimal query string, whose
exact value is a decimal rational; the comparisons performed by the validator
(`isNaN`, `== 0`, `>`/`<` against `Number.MAX_SAFE_INTEGER`) agree between the
double and its decimal value for inputs whose literal is the shortest
representation of its double, so the rational model is faithful on those
observations.  Overflowing literals such as `1e309` (Infinity as a double)
are kept as their literal rational value, which compares against the safe
range exactly as Infinity does.  Arithmetic whose result is irrational or
requires IEEE-754 rounding is outside the exact model; the operations below
note their scope where it matters.
-/

/-- A JavaScript number: `none` is NaN, `some q` a numeric value. -/
def JSNum : Type := Option ℚ

instance : DecidableEq JSNum := by unfold JSNum; infer_instance

/-- JS `<` on numbers: any comparison involving NaN is false. -/
def jlt : JSNum → JSNum → Bool
  | some a, some b => decide (a < b)
  | _, _ => false

/-- JS `>` on numbers: any comparison involving NaN is false. -/
def jgt : JSNum → JSNum → Bool
  | some a, some b => decide (b < a)
  | _, _ => false

/-- JS `==` on two numbers: NaN is equal to nothing, not even itself. -/
def jeq : JSNum → JSNum → Bool
  | some a, some b => decide (a = b)
  | _, _ => false

/-- JS `isNaN` on a number. -/
def jIsNaN : JSNum → Bool
  | none => true
  | some _ => false

/-- `Number.MAX_SAFE_INTEGER`, the numeral value of 2^53 - 1 (kept as a
literal so that the kernel evaluates it). -/
def MAX_SAFE_INTEGER : ℚ := 9007199254740991

/-- `Number.MIN_SAFE_INTEGER`, the numeral value of -(2^53 - 1). -/
def MIN_SAFE_INTEGER : ℚ := -9007199254740991

theorem MAX_SAFE_INTEGER_eq : MAX_SAFE_INTEGER = 2 ^ 53 - 1 := by
  norm_num [MAX_SAFE_INTEGER]

theorem MIN_SAFE_INTEGER_eq : MIN_SAFE_INTEGER = -(2 ^ 53 - 1) := by
  norm_num [MIN_SAFE_INTEGER]

/-! ### parseFloat -/

def isDigitChar (c : Char) : Bool := '0' ≤ c && c ≤ '9'

def digitVal (c : Char) : Nat := c.toNat - '0'.toNat

/-- Longest run of leading decimal digits, and the rest of the input. -/
def readDigits : List Char → List Nat × List Char
  | c :: rest =>
    if isDigitChar c then
      let p := readDigits rest
      (digitVal c :: p.1, p.2)
    else ([], c :: rest)
  | [] => ([], [])

/-- Value of a digit list read most-significant first. -/
def digitsVal (ds : List Nat) : Nat := ds.foldl (fun a d => a * 10 + d) 0

/-- Exponent part of a decimal literal (`e`/`E`, optional sign, digits);
a malformed exponent part contributes nothing, as in `parseFloat`. -/
def parseExpPart : List Char → Int
  | c :: rest =>
    if c = 'e' ∨ c = 'E' then
      match rest with
      | '+' :: r2 => let p := readDigits r2; if p.1 = [] then 0 else (digitsVal p.1 : Int)
      | '-' :: r2 => let p := readDigits r2; if p.1 = [] then 0 else -(digitsVal p.1 : Int)
      | r2 => let p := readDigits r2; if p.1 = [] then 0 else (digitsVal p.1 : Int)
    else 0
  | [] => 0

/-- The rational 10^e for an integer exponent `e`. -/
def pow10Z (e : Int) : ℚ :=
  if 0 ≤ e then (10 : ℚ) ^ e.toNat else 1 / (10 : ℚ) ^ (-e).toNat

/-- `parseFloat` on a string: skip leading whitespace, optional sign,
integer digits, optional fraction, optional exponent; NaN when no digits
occur.  The value is kept as the exact decimal rational (the literal
`Infinity` form, irrelevant to the verified claims, is not modelled). -/
def parseDec (s : String) : JSNum :=
  let cs := s.data.dropWhile (fun c => c = ' ' || c = '\t' || c = '\n' || c = '\r')
  let sp : Bool × List Char :=
    match cs with
    | '-' :: r => (true, r)
    | '+' :: r => (false, r)
    | r => (false, r)
  let ipr := readDigits sp.2
  let fpr : List Nat × List Char :=
    match ipr.2 with
    | '.' :: rf => readDigits rf
    | r => ([], r)
  if ipr.1 = [] ∧ fpr.1 = [] then none
  else
    let e := parseExpPart fpr.2
    let mag : ℚ := ((digitsVal ipr.1 : ℚ) + (digitsVal fpr.1 : ℚ) / (10 : ℚ) ^ fpr.1.length)
      * pow10Z e
    some (if sp.1 then -mag else mag)

/-- `parseFloat(req.query.x)`: an absent query parameter is `undefined`,
which `parseFloat` turns into NaN. -/
def jsParseFloat : Option String → JSNum
  | none => none
  | some s => parseDec s

/-! ### Number.prototype.toString -/

/-- Least `k` (bounded by the fuel) with `den ∣ 10^k`; arguments are
fuel, current candidate `k`, and `10^k`. -/
def findPow10 (den : Nat) : Nat → Nat → Nat → Nat
  | 0, k, _ => k
  | fuel + 1, k, cur => if cur % den = 0 then k else findPow10 den fuel (k + 1) (cur * 10)

def stripTrailZeros (s : String) : String :=
  String.mk (s.data.reverse.dropWhile (fun c => c = '0')).reverse

/-- `Number.prototype.toString` for a numeric value, on the exact-decimal
model: plain decimal notation for decimal exponents in [-6, 20], JS
exponential notation outside that range.  Values whose denominator is not a
divisor of a power of 10 cannot arise from decimal parsing; the fuel bound
makes the search total for them anyway. -/
def jsToString (q : ℚ) : String :=
  if q = 0 then "0"
  else
    let sgn := if q < 0 then "-" else ""
    let m := |q|
    let k := findPow10 m.den 1200 0 1
    let D := m.num.toNat * (10 ^ k / m.den)
    let ds := toString D
    let L := ds.length
    let e : Int := (L : Int) - 1 - (k : Int)
    if 21 ≤ e ∨ e < -6 then
      let md := stripTrailZeros ds
      let mant := if md.length = 1 then md else md.take 1 ++ "." ++ md.drop 1
      sgn ++ mant ++ (if 0 ≤ e then "e+" ++ toString e.toNat else "e-" ++ toString (-e).toNat)
    else if k = 0 then sgn ++ ds
    else if k < L then
      sgn ++ ds.take (L - k) ++ "." ++ ds.drop (L - k)
    else
      sgn ++ "0." ++ String.mk (List.replicate (k - L) '0') ++ ds

/-- `toString` on a JS number; NaN prints as "NaN". -/
def jsNumToString : JSNum → String
  | none => "NaN"
  | some q => jsToString q

/-- The regex test `/\d+\.\d+/.test(s)`: the string contains a dot with a
decimal digit immediately before and after it. -/
def hasFracPattern (s : String) : Bool := go s.data where
  go : List Char → Bool
    | a :: '.' :: b :: rest =>
      (isDigitChar a && isDigitChar b) || go ('.' :: b :: rest)
    | _ :: rest => go rest
    | [] => false

/-- The JS comparison `n2 < 0` where `n2` is a string: the string is coerced
back to a number.  On strings produced by `toString` from a non-NaN number the
coerced value is negative exactly when the string starts with a minus sign. -/
def strNumLtZero (s : String) : Bool := s.startsWith "-"

/-! ### The validator, `handleErrors` (src/index.js lines 43-91) -/

/-- `handleErrors(operator, num1, num2)` from src/index.js.  Return value is
the JS number or `none` for JS `undefined`: the `"^"` and `"sqrt"` branches
have no terminal `return 0`, so falling through them returns `undefined`.
The `&&`-binds-tighter-than-`||` grouping of line 52 is preserved. -/
def handleErrors (operator : String) (num1 num2 : JSNum) : Option Nat :=
  if jIsNaN num1 || jIsNaN num2 then
    some 1
  else if operator = "/" ∨ (operator = "%" ∧ jeq num2 (some 0)) then
    some 2
  else if jgt num1 (some MAX_SAFE_INTEGER) || jlt num1 (some MIN_SAFE_INTEGER)
      || jgt num2 (some MAX_SAFE_INTEGER) || jlt num2 (some MIN_SAFE_INTEGER) then
    some 3
  else if operator = "^" then
    let n2 := jsNumToString num2
    if jlt num1 (some 0) && hasFracPattern n2 then
      some 4
    else if jeq num1 (some 0) && strNumLtZero n2 && hasFracPattern n2 then
      some 5
    else none
  else if operator = "sqrt" then
    if jlt num1 (some 0) then some 6 else none
  else some 0

/-! ### The validator with its observable state

Line 65 of src/index.js assigns `n2 = num2.toString()` without a declaration,
writing a sloppy-mode global variable.  This version threads that global and
the winston error log explicitly. -/

structure VState where
  n2 : Option String
  log : List String
deriving DecidableEq, Repr

/-- `handleErrors` with its writes made explicit: the append-only error log
and the implicit global `n2` set in the `"^"` branch. -/
def handleErrorsSt (operator : String) (num1 num2 : JSNum) (s : VState) :
    Option Nat × VState :=
  if jIsNaN num1 || jIsNaN num2 then
    (some 1, ⟨s.n2, s.log ++ ["Invalid input: Input parameters are not numbers"]⟩)
  else if operator = "/" ∨ (operator = "%" ∧ jeq num2 (some 0)) then
    (some 2, ⟨s.n2, s.log ++ ["Zero division: Division by 0 is not possible"]⟩)
  else if jgt num1 (some MAX_SAFE_INTEGER) || jlt num1 (some MIN_SAFE_INTEGER)
      || jgt num2 (some MAX_SAFE_INTEGER) || jlt num2 (some MIN_SAFE_INTEGER) then
    (some 3, ⟨s.n2, s.log ++ ["Range exceeded: Input parameters have exceeded min/max range limits"]⟩)
  else if operator = "^" then
    let n2 := jsNumToString num2
    if jlt num1 (some 0) && hasFracPattern n2 then
      (some 4, ⟨some n2, s.log ++ ["Negative exponential error: Base is negative and exponent is a fraction"]⟩)
    else if jeq num1 (some 0) && strNumLtZero n2 && hasFracPattern n2 then
      (some 5, ⟨some n2, s.log ++ ["Zero exponential error: Base is 0 and exponent is a negative fraction"]⟩)
    else (none, ⟨some n2, s.log⟩)
  else if operator = "sqrt" then
    if jlt num1 (some 0) then
      (some 6, ⟨s.n2, s.log ++ ["Negative square root: Input number is negative"]⟩)
    else (none, s)
  else (some 0, s)

/-- The stateful validator computes the same outcome as the pure one. -/
theorem handleErrorsSt_fst (operator : String) (num1 num2 : JSNum) (s : VState) :
    (handleErrorsSt operator num1 num2 s).1 = handleErrors operator num1 num2 := by
  unfold handleErrorsSt handleErrors
  split_ifs <;> first
    | rfl
    | (dsimp only; split_ifs <;> rfl)

/-! ### Arithmetic operations used by the handlers -/

/-- JS `+` on numbers; exact on the rational model (IEEE-754 rounding of an
unrepresentable exact sum is outside the model). -/
def jsAdd : JSNum → JSNum → JSNum
  | some a, some b => some (a + b)
  | _, _ => none

/-- JS `-` on numbers, modelled exactly. -/
def jsSub : JSNum → JSNum → JSNum
  | some a, some b => some (a - b)
  | _, _ => none

/-- JS `*` on numbers, modelled exactly. -/
def jsMul : JSNum → JSNum → JSNum
  | some a, some b => some (a * b)
  | _, _ => none

/-- JS `/` on numbers.  A zero divisor gives ±Infinity or NaN in JS, outside
the rational model; the validator makes that branch unreachable in every
handler that divides. -/
def jsDiv : JSNum → JSNum → JSNum
  | some a, some b => if b = 0 then none else some (a / b)
  | _, _ => none

/-- Truncation toward zero, as in JS `%`. -/
def ratTrunc (q : ℚ) : Int := if 0 ≤ q then q.floor else q.ceil

/-- JS `%` on numbers: remainder with the sign of the dividend. -/
def jsMod : JSNum → JSNum → JSNum
  | some a, some b => if b = 0 then none else some (a - b * (ratTrunc (a / b) : ℚ))
  | _, _ => none

/-- JS `Math.pow`: exact on the model when the exponent is an integer and the
result is rational; other cases produce irrational doubles outside the exact
model and are mapped to `none`. -/
def jsPow : JSNum → JSNum → JSNum
  | some a, some b =>
    if b.den = 1 then
      if 0 ≤ b.num then some (a ^ b.num.toNat)
      else if a = 0 then none
      else some (a ^ b.num)
    else none
  | _, _ => none

/-- JS `Math.sqrt`: exact on the model for perfect-square naturals (the case
the verified claims evaluate); negative arguments give NaN in JS, and
irrational roots are outside the exact model, both mapped to `none`. -/
def jsSqrt : JSNum → JSNum
  | some a =>
    if 0 ≤ a ∧ a.den = 1 ∧ Nat.sqrt a.num.toNat * Nat.sqrt a.num.toNat = a.num.toNat then
      some ((Nat.sqrt a.num.toNat : ℚ))
    else none
  | none => none

/-! ### Responses and handlers (src/index.js lines 100-281)

`Resp.ok r` is a 200 response with body `{result: r}`; `Resp.err m` is a 400
response with body `{message: m}`. -/

inductive Resp where
  | ok : JSNum → Resp
  | err : String → Resp
deriving DecidableEq

/-- Body of the `/add` handler after `parseFloat` of the two parameters. -/
def addCore (num1 num2 : JSNum) : Resp :=
  let validate := handleErrors "+" num1 num2
  if validate = some 1 then Resp.err "num1 and num2 must be numbers"
  else if validate = some 3 then Resp.err "Either numbers are too large or too small"
  else Resp.ok (jsAdd num1 num2)

/-- Body of the `/sub` handler after `parseFloat` of the two parameters. -/
def subCore (num1 num2 : JSNum) : Resp :=
  let validate := handleErrors "-" num1 num2
  if validate = some 1 then Resp.err "num1 and num2 must be numbers"
  else if validate = some 3 then Resp.err "Either numbers are too large or too small"
  else Resp.ok (jsSub num1 num2)

/-- Body of the `/mul` handler after `parseFloat` of the two parameters. -/
def mulCore (num1 num2 : JSNum) : Resp :=
  let validate := handleErrors "*" num1 num2
  if validate = some 1 then Resp.err "num1 and num2 must be numbers"
  else if validate = some 3 then Resp.err "Either numbers are too large or too small"
  else Resp.ok (jsMul num1 num2)

/-- Body of the `/div` handler after `parseFloat` of the two parameters. -/
def divCore (num1 num2 : JSNum) : Resp :=
  let validate := handleErrors "/" num1 num2
  if validate = some 1 then Resp.err "num1 and num2 must be numbers"
  else if validate = some 2 then Resp.err "Denominator cannot be 0 in division"
  else if validate = some 3 then Resp.err "Either numbers are too large or too small"
  else Resp.ok (jsDiv num1 num2)

/-- Body of the `/exp` handler after `parseFloat` of the two parameters. -/
def expCore (num1 num2 : JSNum) : Resp :=
  let validate := handleErrors "^" num1 num2
  if validate = some 1 then Resp.err "num1 and num2 must be numbers"
  else if validate = some 3 then Resp.err "Either numbers are too large or too small"
  else if validate = some 4 then Resp.err "If base is negative, exponent cannot be a fraction"
  else if validate = some 5 then Resp.err "If base is 0, exponent cannot be a negative fraction"
  else Resp.ok (jsPow num1 num2)

/-- Body of the `/sqrt` handler after `parseFloat` of its parameter; the
validator is called with the literal 0 as second operand. -/
def sqrtCore (num1 : JSNum) : Resp :=
  let validate := handleErrors "sqrt" num1 (some 0)
  if validate = some 1 then Resp.err "num1 must be a number"
  else if validate = some 3 then Resp.err "Numbers is too large or too small"
  else if validate = some 6 then Resp.err "Square root of negative numbers is not supported"
  else Resp.ok (jsSqrt num1)

/-- Body of the `/mod` handler after `parseFloat` of the two parameters. -/
def modCore (num1 num2 : JSNum) : Resp :=
  let validate := handleErrors "%" num1 num2
  if validate = some 1 then Resp.err "num1 and num2 must be numbers"
  else if validate = some 2 then Resp.err "Denominator cannot be 0 in modulo"
  else if validate = some 3 then Resp.err "Either numbers are too large or too small"
  else Resp.ok (jsMod num1 num2)

/-- The `/add` endpoint on raw query parameters (`none` = absent). -/
def addEndpoint (q1 q2 : Option String) : Resp := addCore (jsParseFloat q1) (jsParseFloat q2)

/-- The `/sub` endpoint on raw query parameters. -/
def subEndpoint (q1 q2 : Option String) : Resp := subCore (jsParseFloat q1) (jsParseFloat q2)

/-- The `/mul` endpoint on raw query parameters. -/
def mulEndpoint (q1 q2 : Option String) : Resp := mulCore (jsParseFloat q1) (jsParseFloat q2)

/-- The `/div` endpoint on raw query parameters. -/
def divEndpoint (q1 q2 : Option String) : Resp := divCore (jsParseFloat q1) (jsParseFloat q2)

/-- The `/exp` endpoint on raw query parameters. -/
def expEndpoint (q1 q2 : Option String) : Resp := expCore (jsParseFloat q1) (jsParseFloat q2)

/-- The `/sqrt` endpoint on its raw query parameter. -/
def sqrtEndpoint (q1 : Option String) : Resp := sqrtCore (jsParseFloat q1)

/-- The `/mod` endpoint on raw query parameters. -/
def modEndpoint (q1 q2 : Option String) : Resp := modCore (jsParseFloat q1) (jsParseFloat q2)

/-- Both operands within the safe range checked on line 58 of src/index.js. -/
def inSafeRange (q : ℚ) : Prop := MIN_SAFE_INTEGER ≤ q ∧ q ≤ MAX_SAFE_INTEGER

instance (q : ℚ) : Decidable (inSafeRange q) := by unfold inSafeRange; infer_instance

/-! ### Claims -/

/-- C1: for two numeric operands (neither NaN) the validator returns error
code 2 (DivisionByZero) exactly when the operation is `/` (regardless of the
second operand) or the operation is `%` with a zero second operand; and every
`/div` request with two numeric operands receives the 400 division-by-zero
response, even for a nonzero denominator. -/
theorem div_mod_zero_flagging (op : String) (a b : ℚ) :
    (handleErrors op (some a) (some b) = some 2 ↔ op = "/" ∨ (op = "%" ∧ b = 0))
    ∧ divCore (some a) (some b) = Resp.err "Denominator cannot be 0 in division" := by
  constructor
  · unfold handleErrors
    simp only [jIsNaN, Bool.or_self, Bool.false_or, if_false, jeq, decide_eq_true_eq]
    split_ifs <;> simp_all
  · simp [divCore, handleErrors, jIsNaN]

/-- C2 (code bug): with no rule matching, the exponent and square-root
branches of the validator fall through without a `return`, so `handleErrors`
yields `undefined` (modelled `none`) rather than the documented Ok code 0. -/
theorem exp_sqrt_undefined_outcome :
    handleErrors "^" (some 2) (some 3) = none
    ∧ handleErrors "sqrt" (some 16) (some 0) = none
    ∧ handleErrors "+" (some 2) (some 3) = some 0 := by
  refine ⟨?_, ?_, ?_⟩ <;> rfl

/-- C3: the `/div` endpoint never produces the OutOfRange message: NaN
operands give code 1, every other pair matches the division-by-zero rule
first, so code 3 is unreachable for the divide operator. -/
theorem div_range_unreachable :
    (∀ num1 num2 : JSNum, handleErrors "/" num1 num2 ≠ some 3)
    ∧ ∀ q1 q2 : Option String,
        divEndpoint q1 q2 ≠ Resp.err "Either numbers are too large or too small" := by
  have key : ∀ num1 num2 : JSNum,
      handleErrors "/" num1 num2 = some 1 ∨ handleErrors "/" num1 num2 = some 2 := by
    intro num1 num2
    unfold handleErrors
    split_ifs with h1 h2
    · exact Or.inl rfl
    · exact Or.inr rfl
    all_goals exact absurd (Or.inl rfl) h2
  constructor
  · intro num1 num2 h
    rcases key num1 num2 with hk | hk <;> simp [hk] at h
  · intro q1 q2 h
    unfold divEndpoint divCore at h
    rcases key (jsParseFloat q1) (jsParseFloat q2) with hk | hk <;> simp [hk] at h

/-- C4: a NaN operand (a non-numeric or absent parameter) makes the
NotANumber rule fire first with code 1 for every operation, and the handler
answers 400 with the must-be-numbers message; in particular
`/add?num1=abc&num2=1`. -/
theorem nan_rule_first (op : String) (num1 num2 : JSNum)
    (h : num1 = none ∨ num2 = none) :
    handleErrors op num1 num2 = some 1
    ∧ addEndpoint (some "abc") (some "1") = Resp.err "num1 and num2 must be numbers" := by
  constructor
  · unfold handleErrors
    rcases h with h | h <;> simp [h, jIsNaN]
  · rfl

/-- C4 witness: instantiated at the absent-first-parameter case. -/
theorem nan_rule_first_witness :
    handleErrors "+" none (some 1) = some 1
    ∧ addEndpoint (some "abc") (some "1") = Resp.err "num1 and num2 must be numbers" :=
  nan_rule_first "+" none (some 1) (Or.inl rfl)

/-- The range condition of line 58 is false for two in-range operands. -/
theorem rangeCond_false {a b : ℚ} (ha : inSafeRange a) (hb : inSafeRange b) :
    (jgt (some a) (some MAX_SAFE_INTEGER) || jlt (some a) (some MIN_SAFE_INTEGER)
      || jgt (some b) (some MAX_SAFE_INTEGER) || jlt (some b) (some MIN_SAFE_INTEGER)) = false := by
  obtain ⟨ha1, ha2⟩ := ha
  obtain ⟨hb1, hb2⟩ := hb
  simp only [jgt, jlt, Bool.or_eq_false_iff, decide_eq_false_iff_not, not_lt]
  exact ⟨⟨⟨ha2, ha1⟩, hb2⟩, hb1⟩

set_option maxRecDepth 8000 in
/-- C5: numeric operands beyond the safe-integer magnitude 2^53 - 1 (in
either direction) take the OutOfRange rule, provided the earlier
division-by-zero rule does not preempt it, and `/add?num1=1e309&num2=1`
receives the 400 out-of-range response. -/
theorem range_rule (op : String) (a b : ℚ) (hop1 : op ≠ "/")
    (hop2 : ¬(op = "%" ∧ b = 0))
    (hmag : MAX_SAFE_INTEGER < a ∨ a < MIN_SAFE_INTEGER
      ∨ MAX_SAFE_INTEGER < b ∨ b < MIN_SAFE_INTEGER) :
    MAX_SAFE_INTEGER = 2 ^ 53 - 1
    ∧ handleErrors op (some a) (some b) = some 3
    ∧ addEndpoint (some "1e309") (some "1")
        = Resp.err "Either numbers are too large or too small" := by
  refine ⟨MAX_SAFE_INTEGER_eq, ?_, by with_unfolding_all rfl⟩
  have h2 : ¬(op = "/" ∨ (op = "%" ∧ jeq (some b) (some 0) = true)) := by
    rintro (h | ⟨h, hb⟩)
    · exact hop1 h
    · exact hop2 ⟨h, by simpa [jeq] using hb⟩
  have h3 : (jgt (some a) (some MAX_SAFE_INTEGER) || jlt (some a) (some MIN_SAFE_INTEGER)
      || jgt (some b) (some MAX_SAFE_INTEGER) || jlt (some b) (some MIN_SAFE_INTEGER)) = true := by
    simp only [jgt, jlt, Bool.or_eq_true, decide_eq_true_eq]
    tauto
  unfold handleErrors
  rw [if_neg h2, if_pos h3]
  · rfl

set_option exponentiation.threshold 400 in
/-- C5 witness: the add operation at operands 10^309 and 1. -/
theorem range_rule_witness :
    handleErrors "+" (some ((10 : ℚ) ^ 309)) (some 1) = some 3 :=
  (range_rule "+" ((10 : ℚ) ^ 309) 1 (by decide) (by simp)
    (Or.inl (by rw [MAX_SAFE_INTEGER_eq]; norm_num))).2.1

/-- C6: on the exponent operation a negative base whose exponent's decimal
string matches the textual digits-dot-digits pattern receives the 400
negative-base message, while `/exp?num1=-2&num2=0.5` gives that 400 and
`/exp?num1=2&num2=3` gives 200 with result 8. -/
theorem exp_fraction_rule :
    (∀ a b : ℚ, inSafeRange a → inSafeRange b → a < 0 →
      hasFracPattern (jsToString b) = true →
      expCore (some a) (some b) = Resp.err "If base is negative, exponent cannot be a fraction")
    ∧ expEndpoint (some "-2") (some "0.5")
        = Resp.err "If base is negative, exponent cannot be a fraction"
    ∧ expEndpoint (some "2") (some "3") = Resp.ok (some 8) := by
  refine ⟨?_, by with_unfolding_all rfl, by with_unfolding_all rfl⟩
  intro a b ha hb ha0 hfrac
  have c3 := rangeCond_false ha hb
  have c4 : jlt (some a) (some 0) = true := by simp [jlt, ha0]
  have hv : handleErrors "^" (some a) (some b) = some 4 := by
    simp [handleErrors, jIsNaN, c3, c4, hfrac, jsNumToString]
  simp [expCore, hv]

/-- C6 witness: base -2 and exponent 1/2 (decimal string "0.5"). -/
theorem exp_fraction_rule_witness :
    expCore (some (-2 : ℚ)) (some ((1 : ℚ) / 2))
      = Resp.err "If base is negative, exponent cannot be a fraction" :=
  exp_fraction_rule.1 (-2) ((1 : ℚ) / 2)
    (by constructor <;> norm_num [MIN_SAFE_INTEGER, MAX_SAFE_INTEGER])
    (by constructor <;> norm_num [MIN_SAFE_INTEGER, MAX_SAFE_INTEGER])
    (by norm_num)
    (by with_unfolding_all rfl)

/-- C7: on the modulo operation a zero second operand receives the 400
modulo-by-zero message; numeric in-range operands with a nonzero second
operand give 200 with the remainder; `/mod?num1=10&num2=0` gives the 400 and
`/mod?num1=10&num2=3` gives 200 with result 1. -/
theorem mod_zero_denominator :
    (∀ a : ℚ, modCore (some a) (some 0) = Resp.err "Denominator cannot be 0 in modulo")
    ∧ (∀ a b : ℚ, inSafeRange a → inSafeRange b → b ≠ 0 →
        modCore (some a) (some b) = Resp.ok (jsMod (some a) (some b)))
    ∧ modEndpoint (some "10") (some "0") = Resp.err "Denominator cannot be 0 in modulo"
    ∧ modEndpoint (some "10") (some "3") = Resp.ok (some 1) := by
  refine ⟨?_, ?_, by with_unfolding_all rfl, by with_unfolding_all rfl⟩
  · intro a
    have hv : handleErrors "%" (some a) (some 0) = some 2 := by
      simp [handleErrors, jIsNaN, jeq]
    simp [modCore, hv]
  · intro a b ha hb hb0
    have c3 := rangeCond_false ha hb
    have c2 : jeq (some b) (some 0) = false := by simp [jeq, hb0]
    have hv : handleErrors "%" (some a) (some b) = some 0 := by
      simp [handleErrors, jIsNaN, c2, c3]
    simp [modCore, hv]

/-- C7 witness: operands 10 and 3 give the remainder branch. -/
theorem mod_zero_denominator_witness :
    modCore (some (10 : ℚ)) (some (3 : ℚ)) = Resp.ok (jsMod (some 10) (some 3)) :=
  mod_zero_denominator.2.1 10 3
    (by constructor <;> norm_num [MIN_SAFE_INTEGER, MAX_SAFE_INTEGER])
    (by constructor <;> norm_num [MIN_SAFE_INTEGER, MAX_SAFE_INTEGER])
    (by norm_num)

/-- C8: on the square-root operation a negative operand receives the 400
negative-square-root message and a non-negative in-range operand gives 200
with the square root; `/sqrt?num1=-4` gives the 400 and `/sqrt?num1=16` gives
200 with result 4. -/
theorem sqrt_negative_rule :
    (∀ a : ℚ, inSafeRange a → a < 0 →
      sqrtCore (some a) = Resp.err "Square root of negative numbers is not supported")
    ∧ (∀ a : ℚ, inSafeRange a → 0 ≤ a →
        sqrtCore (some a) = Resp.ok (jsSqrt (some a)))
    ∧ sqrtEndpoint (some "-4") = Resp.err "Square root of negative numbers is not supported"
    ∧ sqrtEndpoint (some "16") = Resp.ok (some 4) := by
  have hr0 : inSafeRange 0 := by
    constructor <;> norm_num [MIN_SAFE_INTEGER, MAX_SAFE_INTEGER]
  refine ⟨?_, ?_, by with_unfolding_all rfl, by with_unfolding_all rfl⟩
  · intro a ha ha0
    have c3 := rangeCond_false ha hr0
    have c4 : jlt (some a) (some 0) = true := by simp [jlt, ha0]
    have hv : handleErrors "sqrt" (some a) (some 0) = some 6 := by
      simp [handleErrors, jIsNaN, c3, c4]
    simp [sqrtCore, hv]
  · intro a ha ha0
    have c3 := rangeCond_false ha hr0
    have c4 : jlt (some a) (some 0) = false := by simp [jlt, not_lt, ha0]
    have hv : handleErrors "sqrt" (some a) (some 0) = none := by
      simp [handleErrors, jIsNaN, c3, c4]
    simp [sqrtCore, hv]

/-- C8 witness: operand 16 gives the square-root branch. -/
theorem sqrt_negative_rule_witness :
    sqrtCore (some (16 : ℚ)) = Resp.ok (jsSqrt (some 16)) :=
  sqrt_negative_rule.2.1 16
    (by constructor <;> norm_num [MIN_SAFE_INTEGER, MAX_SAFE_INTEGER])
    (by norm_num)

/-- C9: for numeric operands within the safe-integer range, `/add` responds
200 with the sum of the operands, `/sub` with the difference and `/mul` with
the product (exact rational arithmetic, which coincides with IEEE-754 double
arithmetic whenever the exact result is representable). -/
theorem add_sub_mul_exact (a b : ℚ) (ha : inSafeRange a) (hb : inSafeRange b) :
    addCore (some a) (some b) = Resp.ok (some (a + b))
    ∧ subCore (some a) (some b) = Resp.ok (some (a - b))
    ∧ mulCore (some a) (some b) = Resp.ok (some (a * b)) := by
  have c3 := rangeCond_false ha hb
  have hadd : handleErrors "+" (some a) (some b) = some 0 := by
    simp [handleErrors, jIsNaN, c3]
  have hsub : handleErrors "-" (some a) (some b) = some 0 := by
    simp [handleErrors, jIsNaN, c3]
  have hmul : handleErrors "*" (some a) (some b) = some 0 := by
    simp [handleErrors, jIsNaN, c3]
  refine ⟨?_, ?_, ?_⟩
  · simp [addCore, hadd, jsAdd]
  · simp [subCore, hsub, jsSub]
  · simp [mulCore, hmul, jsMul]

/-- C9 witness: operands 2 and 3. -/
theorem add_sub_mul_exact_witness :
    addCore (some (2 : ℚ)) (some (3 : ℚ)) = Resp.ok (some 5)
    ∧ subCore (some (2 : ℚ)) (some (3 : ℚ)) = Resp.ok (some (-1))
    ∧ mulCore (some (2 : ℚ)) (some (3 : ℚ)) = Resp.ok (some 6) := by
  have h := add_sub_mul_exact 2 3
    (by constructor <;> norm_num [MIN_SAFE_INTEGER, MAX_SAFE_INTEGER])
    (by constructor <;> norm_num [MIN_SAFE_INTEGER, MAX_SAFE_INTEGER])
  refine ⟨?_, ?_, ?_⟩
  · rw [h.1]; norm_num
  · rw [h.2.1]; norm_num
  · rw [h.2.2]; norm_num

/-- C10 counterexample: validating `2 ^ 3` succeeds (undefined outcome),
emits no diagnostic (the log stays empty), and yet changes program state
outside the call: the sloppy-mode global `n2` (line 65 of src/index.js) goes
from unset to "3". -/
theorem validator_global_write :
    (handleErrorsSt "^" (some 2) (some 3) ⟨none, []⟩).1 = none
    ∧ (handleErrorsSt "^" (some 2) (some 3) ⟨none, []⟩).2.log = ([] : List String)
    ∧ (handleErrorsSt "^" (some 2) (some 3) ⟨none, []⟩).2.n2 = some "3" := by
  refine ⟨?_, ?_, ?_⟩ <;> with_unfolding_all rfl

/-- C10 amended: the validator is pure in its observable outcome and
diagnostics — both depend only on the arguments — the log is append-only
with an append that does not depend on prior state, and the only other write
is the global `n2`, which is either left untouched or set to a value that
again depends only on the arguments (so no later request can influence a
validation through it). -/
theorem validator_frame (op : String) (num1 num2 : JSNum) (s t : VState) :
    (handleErrorsSt op num1 num2 s).1 = handleErrors op num1 num2
    ∧ (∃ d, (handleErrorsSt op num1 num2 s).2.log = s.log ++ d
        ∧ (handleErrorsSt op num1 num2 t).2.log = t.log ++ d)
    ∧ (((handleErrorsSt op num1 num2 s).2.n2 = s.n2
        ∧ (handleErrorsSt op num1 num2 t).2.n2 = t.n2)
      ∨ (handleErrorsSt op num1 num2 s).2.n2 = (handleErrorsSt op num1 num2 t).2.n2) := by
  refine ⟨handleErrorsSt_fst op num1 num2 s, ?_, ?_⟩ <;>
    (unfold handleErrorsSt
     split_ifs <;> dsimp only <;> try split_ifs) <;>
    first
      | exact ⟨_, rfl, rfl⟩
      | exact ⟨[], (List.append_nil _).symm, (List.append_nil _).symm⟩
      | exact Or.inl ⟨rfl, rfl⟩
      | exact Or.inr rfl

/-- C1 witness: a `/div` request with operands 10 and 5 (nonzero denominator)
still receives the division-by-zero response. -/
theorem div_mod_zero_flagging_witness :
    divCore (some (10 : ℚ)) (some (5 : ℚ)) = Resp.err "Denominator cannot be 0 in division" :=
  (div_mod_zero_flagging "/" 10 5).2

/-- C3 witness: the `/div` endpoint at query 10 and 5 does not give the
out-of-range message. -/
theorem div_range_unreachable_witness :
    divEndpoint (some "10") (some "5") ≠ Resp.err "Either numbers are too large or too small" :=
  div_range_unreachable.2 (some "10") (some "5")
